import Mathlib

/-!
Verification of the MindfulMe identity & capability-token subsystem.

The definitions below are a shallow embedding of the TypeScript sources:
`backend/src/routes/journal.ts` (field encryption),
`backend/src/routes/auth.ts` and the supabase auth route variant
(login lockout, refresh, logout), and the doctor-bridge routes
(session codes, claim, revoke, permission-gated view assembly).
Machine randomness (IVs, generated codes, fresh ids) is passed in as
explicit parameters; the persistence layer is explicit state; AES-CBC is
modelled as an ideal symmetric cipher (ciphertext determined by plaintext,
key and IV; decryption recovers the plaintext exactly under the same key
and IV and otherwise yields the empty string, the code's catch branch).
-/

namespace MindfulMe

/-- JavaScript `a || b` on an environment string: `undefined` and the empty
string are falsy, so both fall back to the default. -/
def jsOrDefault (v : Option String) (d : String) : String :=
  match v with
  | none => d
  | some s => if s = "" then d else s

/-- Ciphertext of `CryptoJS.AES.encrypt`, as an ideal symmetric cipher:
the ciphertext determines and is determined by (plaintext, key, iv). -/
structure AESCiphertext where
  payload : String
  key : String
  iv : String
deriving DecidableEq

/-- `CryptoJS.AES.encrypt(content, key, { iv })`. -/
def aesEncrypt (content key iv : String) : AESCiphertext :=
  { payload := content, key := key, iv := iv }

/-- `CryptoJS.AES.decrypt(c, key, { iv }).toString(Utf8)`: the plaintext
under the matching key and iv, the empty string otherwise (a mismatched key
garbles the ciphertext and the UTF-8 decode yields the empty string or the
surrounding catch returns it). -/
def aesDecrypt (c : AESCiphertext) (key iv : String) : String :=
  if c.key = key ∧ c.iv = iv then c.payload else ""

/-! ## Field Encryption Module (journal.ts lines 24-64) -/

/-- journal.ts line 26: the hardcoded fallback key. -/
def JOURNAL_DEFAULT_KEY : String := "default-encryption-key-change-in-production"

/-- journal.ts line 26:
`ENCRYPTION_KEY = process.env.JOURNAL_ENCRYPTION_KEY || 'default-encryption-key-change-in-production'`.
`envKey` is the value of the environment variable. -/
def journalKey (envKey : Option String) : String :=
  jsOrDefault envKey JOURNAL_DEFAULT_KEY

/-- Return shape of `encryptContent`. -/
structure EncryptedContent where
  encrypted : AESCiphertext
  iv : String
deriving DecidableEq

/-- journal.ts `encryptContent`: fresh random iv (passed in as `ivRand`),
AES-CBC under the module-level `ENCRYPTION_KEY`. -/
def encryptContent (envKey : Option String) (ivRand : String) (content : String) :
    EncryptedContent :=
  { encrypted := aesEncrypt content (journalKey envKey) ivRand, iv := ivRand }

/-- journal.ts `decryptContent`: AES-CBC decrypt under the module-level
`ENCRYPTION_KEY`; any failure is caught and returns the empty string. -/
def decryptContent (envKey : Option String) (encrypted : AESCiphertext) (iv : String) :
    String :=
  aesDecrypt encrypted (journalKey envKey) iv

/-- The owner-parameterised `encrypt(p, uid)` of the spec, as the code
implements it: journal.ts derives no per-owner key, so the owner argument
is not consulted and every owner encrypts under the same global key. -/
def encryptForOwner (envKey : Option String) (ivRand : String) (p : String)
    (_ownerId : String) : EncryptedContent :=
  encryptContent envKey ivRand p

/-- The owner-parameterised `decrypt(blob, uid)` of the spec, as the code
implements it: the owner argument is not consulted. -/
def decryptForOwner (envKey : Option String) (e : EncryptedContent)
    (_ownerId : String) : String :=
  decryptContent envKey e.encrypted e.iv

/-! ## Capability-code encryption (doctor routes, part_005 lines 616-665) -/

/-- Doctor-bridge hardcoded fallback key (part_005 line 618). -/
def DOCTOR_DEFAULT_KEY : String := "doctor-bridge-encryption-key"

/-- part_005 line 618:
`ENCRYPTION_KEY = process.env.DOCTOR_BRIDGE_KEY || 'doctor-bridge-encryption-key'`. -/
def doctorBridgeKey (envKey : Option String) : String :=
  jsOrDefault envKey DOCTOR_DEFAULT_KEY

/-- part_005 `encryptSessionCode` (passphrase-mode AES; the derived iv is
modelled as the empty string since the code supplies none explicitly). -/
def encryptSessionCode (envKey : Option String) (code : String) : AESCiphertext :=
  aesEncrypt code (doctorBridgeKey envKey) ""

/-- part_005 `decryptSessionCode`. -/
def decryptSessionCode (envKey : Option String) (c : AESCiphertext) : String :=
  aesDecrypt c (doctorBridgeKey envKey) ""

/-! ## Claim C1 and C5 theorems -/

/-- C1: the claim says an unconfigured master secret makes every
encryption call fail loudly with `MisconfiguredSecret`. The code instead
proceeds: with the environment variable unset, the journal key and the
doctor-bridge key silently become the hardcoded placeholders and both
encryption paths produce ciphertext under those placeholder keys. -/
theorem spec_c1_bug :
    journalKey none = JOURNAL_DEFAULT_KEY ∧
    (encryptContent none "4f3a" "hello").encrypted =
      aesEncrypt "hello" JOURNAL_DEFAULT_KEY "4f3a" ∧
    doctorBridgeKey none = DOCTOR_DEFAULT_KEY ∧
    encryptSessionCode none "123456" =
      aesEncrypt "123456" DOCTOR_DEFAULT_KEY "" ∧
    decryptContent none (encryptContent none "4f3a" "hello").encrypted "4f3a" = "hello" :=
  ⟨rfl, rfl, rfl, rfl, rfl⟩

/-- C5 counterexample: the claim says a cross-owner decrypt
`decrypt(encrypt(p, uid1), uid2)` with `uid1 ≠ uid2` returns the empty
sentinel and never `p`. The code has no per-owner keys, so the decrypt
for a different owner returns the plaintext itself. -/
theorem spec_c5_counterexample :
    decryptForOwner none (encryptForOwner none "4f3a" "secret" "alice") "bob" = "secret" ∧
    "alice" ≠ "bob" ∧ "secret" ≠ "" :=
  ⟨rfl, by decide, by decide⟩

/-- C5 amended: round-tripping recovers the plaintext (including the empty
string) for every owner, same or different, because decryption is
owner-independent; the empty sentinel is produced (no exception) exactly
when the ciphertext was produced under a different configured key. -/
theorem spec_c5_amended :
    (∀ (envKey : Option String) (iv p uid1 uid2 : String),
      decryptForOwner envKey (encryptForOwner envKey iv p uid1) uid2 = p) ∧
    (∀ (env1 env2 : Option String) (iv p : String),
      journalKey env1 ≠ journalKey env2 →
      decryptContent env2 (encryptContent env1 iv p).encrypted
        (encryptContent env1 iv p).iv = "") := by
  constructor
  · intro envKey iv p uid1 uid2
    simp [decryptForOwner, encryptForOwner, encryptContent, decryptContent,
      aesEncrypt, aesDecrypt]
  · intro env1 env2 iv p h
    simp [decryptContent, encryptContent, aesEncrypt, aesDecrypt]
    intro hk
    exact absurd hk h

/-- C5 amended, witness: a concrete roundtrip on the empty string and a
concrete cross-key decrypt yielding the empty sentinel. -/
theorem spec_c5_amended_witness :
    decryptForOwner (some "k1") (encryptForOwner (some "k1") "4f3a" "" "alice") "bob" = "" ∧
    decryptContent (some "k2") (encryptContent (some "k1") "4f3a" "hello").encrypted
      (encryptContent (some "k1") "4f3a" "hello").iv = "" :=
  ⟨spec_c5_amended.1 (some "k1") "4f3a" "" "alice" "bob",
   spec_c5_amended.2 (some "k1") (some "k2") "4f3a" "hello" (by decide)⟩

/-! ## Credential issuer: login lockout (auth.ts lines 151-175 and the
supabase variant, part_005 lines 192-246) -/

/-- The lockout-relevant columns of a user row. -/
structure UserAuthState where
  failed_login_attempts : Nat
  locked_until : Option Int
  last_login : Option Int
deriving DecidableEq

/-- `user.locked_until && new Date(user.locked_until) > new Date()`. -/
def isLocked (now : Int) (u : UserAuthState) : Bool :=
  match u.locked_until with
  | some t => decide (now < t)
  | none => false

/-- Outcome of a login attempt for an existing user. -/
inductive LoginOutcome where
  | accountLocked
  | authFailed
  | success
deriving DecidableEq

/-- Both variants lock for 15 minutes. -/
def LOCK_WINDOW_MS : Int := 15 * 60 * 1000

/-- One login attempt against an existing user, shared shape of
auth.ts lines 151-175 (threshold 4: `failed_login_attempts + 1 >= 4`) and
part_005 lines 192-246 (threshold 5: `failedAttempts >= 5` where
`failedAttempts = (user.failed_login_attempts || 0) + 1`). The locked
check runs first; a wrong password increments the counter and sets
`locked_until` from the post-increment value; a correct password resets
the counter, clears the lock and stamps `last_login`. -/
def processLogin (threshold : Nat) (now : Int) (passwordOk : Bool)
    (u : UserAuthState) : LoginOutcome × UserAuthState :=
  if isLocked now u then (.accountLocked, u)
  else if passwordOk then
    (.success, { failed_login_attempts := 0, locked_until := none, last_login := some now })
  else
    let failedAttempts := u.failed_login_attempts + 1
    let lockTime : Option Int :=
      if threshold ≤ failedAttempts then some (now + LOCK_WINDOW_MS) else none
    (.authFailed, { u with failed_login_attempts := failedAttempts, locked_until := lockTime })

/-- part_005 line 205 threshold constant. -/
def SUPABASE_LOCK_THRESHOLD : Nat := 5

/-- auth.ts line 163 threshold constant. -/
def BACKEND_LOCK_THRESHOLD : Nat := 4

/-- `k` consecutive wrong-password attempts starting from a fresh user. -/
def failIter (threshold : Nat) (now : Int) : Nat → UserAuthState
  | 0 => { failed_login_attempts := 0, locked_until := none, last_login := none }
  | k + 1 => (processLogin threshold now false (failIter threshold now k)).2

theorem failIter_below (threshold : Nat) (now : Int) :
    ∀ k, k < threshold →
      failIter threshold now k =
        { failed_login_attempts := k, locked_until := none, last_login := none } := by
  intro k
  induction k with
  | zero => intro _; rfl
  | succ n ih =>
    intro hlt
    have hn : n < threshold := Nat.lt_of_succ_lt hlt
    have hstate := ih hn
    show (processLogin threshold now false (failIter threshold now n)).2 = _
    rw [hstate]
    have hnotLock : ¬ threshold ≤ n + 1 := Nat.not_le_of_lt hlt
    simp [processLogin, isLocked, hnotLock]

/-- C3: with the configured threshold `t`, a wrong password increments the
counter and the lock is keyed on the post-increment value; fewer than `t`
consecutive failures leave the account unlocked with an exact count, the
`t`-th failure sets `locked_until = now + 15 min`; while `locked_until`
is in the future every attempt (either password) fails `accountLocked`
untouched; a correct password on an unlocked account resets the counter
to zero and clears the lock. -/
theorem spec_c3 (t : Nat) (ht : 1 ≤ t) (now : Int) :
    (∀ (now2 : Int) (u : UserAuthState), isLocked now2 u = false →
      (processLogin t now2 false u).2.failed_login_attempts = u.failed_login_attempts + 1 ∧
      (processLogin t now2 false u).2.locked_until =
        (if t ≤ u.failed_login_attempts + 1 then some (now2 + LOCK_WINDOW_MS) else none)) ∧
    (∀ k, k < t →
      (failIter t now k).failed_login_attempts = k ∧
      (failIter t now k).locked_until = none) ∧
    (failIter t now t).locked_until = some (now + LOCK_WINDOW_MS) ∧
    (∀ (now2 : Int) (pwd : Bool) (u : UserAuthState), isLocked now2 u = true →
      processLogin t now2 pwd u = (.accountLocked, u)) ∧
    (∀ (now2 : Int) (u : UserAuthState), isLocked now2 u = false →
      (processLogin t now2 true u).1 = .success ∧
      (processLogin t now2 true u).2.failed_login_attempts = 0 ∧
      (processLogin t now2 true u).2.locked_until = none) := by
  refine ⟨?_, ?_, ?_, ?_, ?_⟩
  · intro now2 u hu
    simp [processLogin, hu]
  · intro k hk
    rw [failIter_below t now k hk]
    exact ⟨rfl, rfl⟩
  · obtain ⟨s, hs⟩ := Nat.exists_eq_add_of_le ht
    have hs2 : t = s + 1 := by omega
    have hpred : s < t := by omega
    have : failIter t now t = (processLogin t now false (failIter t now s)).2 := by
      rw [hs2]
      rfl
    rw [this, failIter_below t now s hpred]
    have hge : t ≤ s + 1 := by omega
    simp [processLogin, isLocked, hge]
  · intro now2 pwd u hu
    simp [processLogin, hu]
  · intro now2 u hu
    simp [processLogin, hu]

/-- C3 witness, at the supabase variant's threshold 5: four failures leave
the account unlocked with count 4, the fifth sets the 15-minute lock, a
locked user is rejected untouched, and a correct password resets. -/
theorem spec_c3_witness :
    (failIter 5 0 4).failed_login_attempts = 4 ∧
    (failIter 5 0 4).locked_until = none ∧
    (failIter 5 0 5).locked_until = some (0 + LOCK_WINDOW_MS) ∧
    processLogin 5 1 true { failed_login_attempts := 5, locked_until := some 2, last_login := none } =
      (.accountLocked, { failed_login_attempts := 5, locked_until := some 2, last_login := none }) ∧
    (processLogin 5 9 true { failed_login_attempts := 3, locked_until := none, last_login := none }).2.failed_login_attempts = 0 := by
  obtain ⟨h1, h2, h3, h4, h5⟩ := spec_c3 5 (by decide) 0
  refine ⟨(h2 4 (by decide)).1, (h2 4 (by decide)).2, h3, h4 1 true _ (by decide), (h5 9 _ (by decide)).2.1⟩

/-! ## Credential issuer: refresh and logout (auth.ts lines 217-285) -/

/-- A stored refresh-token row (table `refresh_tokens`). -/
structure RefreshTokenRow where
  user_id : String
  token_hash : String
  expires_at : Int
  is_revoked : Bool
deriving DecidableEq

/-- A user row as read by the refresh route. -/
structure BackendUser where
  id : String
  email : String
deriving DecidableEq

/-- The persistence state the auth routes touch. -/
structure AuthDb where
  users : List BackendUser
  refresh_tokens : List RefreshTokenRow
deriving DecidableEq

/-- A presented refresh JWT: its embedded claims plus whether its
signature verifies under the configured refresh secret. -/
structure RefreshJwt where
  userId : String
  exp : Int
  signatureOk : Bool
deriving DecidableEq

/-- `verifyRefreshToken` (middleware/auth.ts lines 166-173): `jwt.verify`
succeeds exactly on a well-signed, unexpired token. -/
def verifyRefreshToken (now : Int) (t : RefreshJwt) : Option String :=
  if t.signatureOk ∧ now < t.exp then some t.userId else none

/-- Outcome of `POST /refresh`: on `issued uid` the response carries a new
access token for `uid` only; no new refresh token is issued and the
presented one is unchanged. -/
inductive RefreshOutcome where
  | invalidToken
  | userNotFound
  | issued (userId : String)
deriving DecidableEq

/-- auth.ts lines 217-265, `POST /refresh`: verify the JWT, load the user,
issue a new access token. The stored `refresh_tokens` rows are never
consulted. -/
def refreshRoute (now : Int) (db : AuthDb) (tok : RefreshJwt) : RefreshOutcome :=
  match verifyRefreshToken now tok with
  | none => .invalidToken
  | some uid =>
    match db.users.find? (fun u => u.id = uid) with
    | none => .userNotFound
    | some u => .issued u.id

/-- auth.ts lines 271-285, `POST /logout`: mark every stored refresh-token
row of the user revoked. -/
def logoutRoute (db : AuthDb) (userId : String) : AuthDb :=
  { db with
    refresh_tokens := db.refresh_tokens.map
      (fun r => if r.user_id = userId then { r with is_revoked := true } else r) }

/-- A user with one stored (valid) refresh-token row. -/
def c7Db : AuthDb :=
  { users := [{ id := "u1", email := "u1@example.com" }],
    refresh_tokens := [{ user_id := "u1", token_hash := "h1", expires_at := 604800000, is_revoked := false }] }

/-- A well-signed, unexpired refresh token previously issued to `u1`. -/
def c7Tok : RefreshJwt := { userId := "u1", exp := 604800000, signatureOk := true }

/-- C7: the claim says a refresh whose hash is not among the valid stored
entries fails `InvalidToken`, so after logout every previously issued
refresh token is rejected. The code never reads the stored rows: after
logout has revoked `u1`'s only stored hash, the same token still yields a
fresh access token; indeed the route returns the same outcome with the
token table emptied or fully revoked. -/
theorem spec_c7_bug :
    (logoutRoute c7Db "u1").refresh_tokens.all (fun r => r.is_revoked) = true ∧
    refreshRoute 0 (logoutRoute c7Db "u1") c7Tok = .issued "u1" ∧
    refreshRoute 0 { users := c7Db.users, refresh_tokens := [] } c7Tok = .issued "u1" ∧
    refreshRoute 0 c7Db c7Tok = .issued "u1" ∧
    refreshRoute 0 c7Db { userId := "u1", exp := 604800000, signatureOk := false } = .invalidToken ∧
    refreshRoute 700000000 c7Db c7Tok = .invalidToken :=
  ⟨rfl, rfl, rfl, rfl, rfl, rfl⟩

/-! ## Doctor-bridge data model (part_005 lines 593-1197) -/

/-- The permission gates stored on a connection (snake-case DB shape,
part_005 lines 835-842). -/
structure ConnectionPermissions where
  view_mood_logs : Bool
  view_journal_entries : Bool
  view_voice_analysis : Bool
  view_medication_logs : Bool
  view_behavioral_data : Bool
  export_data : Bool
deriving DecidableEq

/-- A row of `doctor_connections`. -/
structure DoctorConnection where
  id : String
  patient_id : String
  doctor_id : String
  access_token : AESCiphertext
  token_expires_at : Int
  is_active : Bool
  permissions : ConnectionPermissions
  access_count : Nat
  last_accessed_at : Option Int
  revoked_at : Option Int
  revocation_reason : Option String
deriving DecidableEq

/-- `isClaimed: !!conn.doctor_id` (part_005 line 905): the empty string is
the unclaimed representation. -/
def isClaimed (c : DoctorConnection) : Bool :=
  decide (c.doctor_id ≠ "")

/-- A row of `doctors` as read by the doctor routes. -/
structure Doctor where
  id : String
  first_name : String
  last_name : String
  specialization : Option String
  is_verified : Bool
deriving DecidableEq

/-- The persistence state the doctor routes touch. -/
structure DoctorState where
  connections : List DoctorConnection
  doctors : List Doctor
deriving DecidableEq

/-! ## Patient record windows and summary helpers
(part_005 lines 1144-1194) -/

/-- A mood log row as consumed by `calculateMoodTrends`. -/
structure MoodLog where
  mood_score : Rat
  anxiety_level : Option Rat
deriving DecidableEq

/-- The journal metadata columns selected for doctors (part_005 line 1032):
no encrypted content, only metadata and sentiment summaries. -/
structure JournalMetaRow where
  id : String
  title : String
  entry_type : String
  sentiment_analysis : String
  emotion_tags : String
  created_at : Int
deriving DecidableEq

/-- The voice biometric columns selected for doctors (part_005 line 1042). -/
structure VoiceBiometric where
  id : String
  flat_affect_score : Rat
  agitated_speech_score : Rat
  overall_vocal_health_score : Rat
  created_at : Int
deriving DecidableEq

/-- A medication log row as consumed by `calculateAdherenceRate`. -/
structure MedicationLog where
  status : String
deriving DecidableEq

/-- JavaScript `Math.round`: round half towards positive infinity. -/
def jsRound (x : Rat) : Int :=
  Int.floor (x + 1 / 2)

/-- `xs.reduce((a, b) => a + b, 0)`. -/
def jsSum (xs : List Rat) : Rat :=
  xs.foldl (· + ·) 0

/-- Return shape of `calculateMoodTrends`. -/
structure MoodTrends where
  trend : String
  averageMood : Option Rat
  averageAnxiety : Option Rat
deriving DecidableEq

/-- part_005 lines 1144-1166, `calculateMoodTrends`: empty window yields
the `insufficient_data` sentinel; otherwise averages, and with at least 3
scores compares the two newest against the two oldest with a ±0.5 band. -/
def calculateMoodTrends (logs : List MoodLog) : MoodTrends :=
  if logs.length = 0 then
    { trend := "insufficient_data", averageMood := none, averageAnxiety := none }
  else
    let moodScores := logs.map (fun l => l.mood_score)
    let anxietyScores := (logs.filter (fun l => l.anxiety_level.isSome)).map
      (fun l => l.anxiety_level.getD 0)
    let avgMood := jsSum moodScores / (moodScores.length : Rat)
    let avgAnxiety : Option Rat :=
      if 0 < anxietyScores.length then
        some (jsSum anxietyScores / (anxietyScores.length : Rat))
      else none
    let trend :=
      if 3 ≤ moodScores.length then
        let recentAvg := (moodScores.getD 0 0 + moodScores.getD 1 0) / 2
        let olderAvg := (moodScores.getD (moodScores.length - 2) 0 +
          moodScores.getD (moodScores.length - 1) 0) / 2
        if (1 : Rat) / 2 < recentAvg - olderAvg then "improving"
        else if (1 : Rat) / 2 < olderAvg - recentAvg then "declining"
        else "stable"
      else "stable"
    { trend := trend,
      averageMood := some ((jsRound (avgMood * 10) : Rat) / 10),
      averageAnxiety := avgAnxiety }

/-- part_005 lines 1173-1177, `calculateAdherenceRate`: 0 on an empty
window (the division is guarded), else the rounded taken/total percentage. -/
def calculateAdherenceRate (logs : List MedicationLog) : Int :=
  if logs.length = 0 then 0
  else
    let taken := (logs.filter (fun l => l.status = "taken")).length
    jsRound ((taken : Rat) / (logs.length : Rat) * 100)

/-- Return shape of `analyzeVoiceInsights`. -/
structure VoiceInsights where
  status : String
  averageVocalHealth : Option Int
  averageFlatAffect : Option Rat
  averageAgitation : Option Rat
deriving DecidableEq

/-- part_005 lines 1179-1194, `analyzeVoiceInsights`: empty window yields
the `insufficient_data` sentinel, else averaged sub-scores bucketed into
healthy / moderate / concern. -/
def analyzeVoiceInsights (analyses : List VoiceBiometric) : VoiceInsights :=
  if analyses.length = 0 then
    { status := "insufficient_data", averageVocalHealth := none,
      averageFlatAffect := none, averageAgitation := none }
  else
    let avgVocalHealth :=
      jsSum (analyses.map (fun a => a.overall_vocal_health_score)) / (analyses.length : Rat)
    let avgFlatAffect :=
      jsSum (analyses.map (fun a => a.flat_affect_score)) / (analyses.length : Rat)
    let avgAgitation :=
      jsSum (analyses.map (fun a => a.agitated_speech_score)) / (analyses.length : Rat)
    { status :=
        if 70 < avgVocalHealth then "healthy"
        else if 50 < avgVocalHealth then "moderate"
        else "concern",
      averageVocalHealth := some (jsRound avgVocalHealth),
      averageFlatAffect := some ((jsRound (avgFlatAffect * 100) : Rat) / 100),
      averageAgitation := some ((jsRound (avgAgitation * 100) : Rat) / 100) }

/-- C8: over zero historical records each summary yields its explicit
sentinel — `insufficient_data` for mood trends and voice insights, 0 for
the adherence rate — with the divisions guarded by the emptiness checks. -/
theorem spec_c8 :
    calculateMoodTrends [] =
      { trend := "insufficient_data", averageMood := none, averageAnxiety := none } ∧
    analyzeVoiceInsights [] =
      { status := "insufficient_data", averageVocalHealth := none,
        averageFlatAffect := none, averageAgitation := none } ∧
    calculateAdherenceRate [] = 0 :=
  ⟨rfl, rfl, rfl⟩

/-! ## Permission-gated patient data assembly and the claim route
(part_005 lines 964-1084) -/

/-- The recent-window fetch results for one patient (the route fetches
bounded windows: 30 mood logs, 30 journal metadata rows, 10 voice
analyses, 30 medication logs). -/
structure PatientStore where
  moodLogs : List MoodLog
  journalEntries : List JournalMetaRow
  voiceAnalysis : List VoiceBiometric
  medicationLogs : List MedicationLog
deriving DecidableEq

/-- The `patientData` object of part_005 lines 1017-1057: a key is present
(`some`) exactly when it was assigned under its permission gate, absent
(`none`, JavaScript `undefined`) otherwise. -/
structure PatientDataOut where
  moodLogs : Option (List MoodLog)
  journalEntries : Option (List JournalMetaRow)
  voiceAnalysis : Option (List VoiceBiometric)
  medicationLogs : Option (List MedicationLog)
deriving DecidableEq

/-- part_005 lines 1015-1057: each category is fetched and assigned only
under its gate. -/
def assemblePatientData (perms : ConnectionPermissions) (store : PatientStore) :
    PatientDataOut :=
  { moodLogs := if perms.view_mood_logs then some store.moodLogs else none,
    journalEntries := if perms.view_journal_entries then some store.journalEntries else none,
    voiceAnalysis := if perms.view_voice_analysis then some store.voiceAnalysis else none,
    medicationLogs := if perms.view_medication_logs then some store.medicationLogs else none }

/-- Body of a successful `POST /access` response (part_005 lines 1068-1080). -/
structure AccessResponse where
  accessToken : AESCiphertext
  expiresAt : Int
  permissions : ConnectionPermissions
  moodTrends : MoodTrends
  mentalHealthIndex : Option Rat
  adherenceRate : Int
  voiceInsights : VoiceInsights
  data : PatientDataOut
deriving DecidableEq

/-- Result of `POST /access`. `internalError` is the route's catch-all 500
path, reached when a summary helper is applied to an absent (`undefined`)
category; it carries the state because both connection updates have
already been persisted by then. -/
inductive AccessResult where
  | missingParams
  | invalidOrExpired
  | invalidCode
  | doctorNotFound
  | internalError (st : DoctorState)
  | success (resp : AccessResponse) (st : DoctorState)
deriving DecidableEq

/-- The candidate scan of part_005 lines 974-992: restrict to active,
unexpired connections, then decrypt each stored code and compare. -/
def connMatch (envKey : Option String) (now : Int) (st : DoctorState)
    (sessionCode : String) : Option DoctorConnection :=
  (st.connections.filter
    (fun c => c.is_active && decide (now < c.token_expires_at))).find?
    (fun c => decide (decryptSessionCode envKey c.access_token = sessionCode))

/-- part_005 lines 965-1084, `POST /access`: find the matching active
unexpired connection by decrypt-and-compare, resolve the doctor,
unconditionally overwrite `doctor_id`, assemble the permission-gated
patient data, bump `access_count` and `last_accessed_at` (from the stale
read), then build the response; `calculateMoodTrends`,
`calculateAdherenceRate` and `analyzeVoiceInsights` dereference their
category unconditionally, so a missing category throws and the route
answers 500 after the writes. -/
def accessRoute (envKey : Option String) (now : Int) (st : DoctorState)
    (store : String → PatientStore) (mhi : String → Option Rat)
    (sessionCode doctorId : String) : AccessResult :=
  if sessionCode = "" ∨ doctorId = "" then .missingParams
  else if (st.connections.filter
      (fun c => c.is_active && decide (now < c.token_expires_at))).isEmpty then
    .invalidOrExpired
  else
    match connMatch envKey now st sessionCode with
    | none => .invalidCode
    | some connection =>
      match st.doctors.find? (fun d => d.id = doctorId) with
      | none => .doctorNotFound
      | some _doctor =>
        let st1 : DoctorState :=
          { st with
            connections :=
              st.connections.map (fun c =>
                if c.id = connection.id then { c with doctor_id := doctorId } else c) }
        let pd := assemblePatientData connection.permissions (store connection.patient_id)
        let st2 : DoctorState :=
          { st1 with
            connections :=
              st1.connections.map (fun c =>
                if c.id = connection.id then
                  { c with
                    access_count := connection.access_count + 1
                    last_accessed_at := some now }
                else c) }
        match pd.moodLogs, pd.medicationLogs, pd.voiceAnalysis with
        | some moodLogs, some medLogs, some voice =>
          .success
            { accessToken := connection.access_token,
              expiresAt := connection.token_expires_at,
              permissions := connection.permissions,
              moodTrends := calculateMoodTrends moodLogs,
              mentalHealthIndex := mhi connection.patient_id,
              adherenceRate := calculateAdherenceRate medLogs,
              voiceInsights := analyzeVoiceInsights voice,
              data := pd }
            st2
        | _, _, _ => .internalError st2

/-- Whether an `AccessResult` is the 500 catch-all. -/
def isInternalError : AccessResult → Bool
  | .internalError _ => true
  | _ => false

/-! ## Session-code creation (part_005 lines 632-860) -/

/-- `createSessionCodeSchema`'s ttl rule:
`expiresInHours: z.number().min(1).max(72)`. -/
def createSessionCodeSchemaAccepts (h : Int) : Bool :=
  decide (1 ≤ h) && decide (h ≤ 72)

/-- part_005 line 652-654, `generateSessionCode`:
`Math.floor(100000 + Math.random() * 900000).toString()`; `rand` is the
scaled random draw. -/
def generateSessionCode (rand : Fin 900000) : String :=
  toString (100000 + rand.val)

/-- Milliseconds per hour, for `expiresAt.setHours(getHours + h)`. -/
def MS_PER_HOUR : Int := 3600000

/-- Body of a successful `POST /session` response. -/
structure SessionResponse where
  sessionCode : String
  expiresAt : Int
  permissions : ConnectionPermissions
deriving DecidableEq

/-- Result of `POST /session`. -/
inductive SessionResult where
  | validationFailed
  | userNotFound
  | created (conn : DoctorConnection) (resp : SessionResponse)
deriving DecidableEq

/-- part_005 lines 796-860, `POST /session`: validate the ttl, check the
user, then persist a connection holding only the encrypted code, with
`doctor_id` the unclaimed empty string, active, `access_count` 0 and
expiry `now + h` hours; the plaintext code goes out in the response. -/
def sessionRoute (envKey : Option String) (now : Int) (newId userId code : String)
    (userExists : Bool) (perms : ConnectionPermissions) (expiresInHours : Int) :
    SessionResult :=
  if ¬ createSessionCodeSchemaAccepts expiresInHours = true then .validationFailed
  else if ¬ userExists = true then .userNotFound
  else
    let expiresAt := now + expiresInHours * MS_PER_HOUR
    .created
      { id := newId, patient_id := userId, doctor_id := "",
        access_token := encryptSessionCode envKey code,
        token_expires_at := expiresAt, is_active := true,
        permissions := perms, access_count := 0,
        last_accessed_at := none, revoked_at := none, revocation_reason := none }
      { sessionCode := code, expiresAt := expiresAt, permissions := perms }

/-! ## Revocation (part_005 lines 927-962) -/

/-- part_005 lines 927-962, `DELETE /sessions/:id`: set `is_active` false,
stamp `revoked_at` and the reason on every row matching (id, patient);
the route reports the success message whether or not any row matched. -/
def revokeRoute (now : Int) (conns : List DoctorConnection) (id patientId : String) :
    List DoctorConnection × String :=
  (conns.map (fun c =>
    if c.id = id ∧ c.patient_id = patientId then
      { c with
        is_active := false
        revoked_at := some now
        revocation_reason := some "Revoked by patient" }
    else c),
   "Session revoked successfully")

/-! ## Inversion of a successful claim -/

/-- What a successful `POST /access` implies: a matching active unexpired
connection was found; the three summary gates were necessarily on (else
the route would have thrown); the response discloses the stored
ciphertext, expiry and permissions and carries the permission-gated data;
and the persisted state rebinds `doctor_id` to the caller and bumps the
counters — irrespective of any previous `doctor_id`. -/
theorem accessRoute_success_inv :
    ∀ (envKey : Option String) (now : Int) (st : DoctorState)
      (store : String → PatientStore) (mhi : String → Option Rat)
      (sessionCode doctorId : String) (resp : AccessResponse) (st2 : DoctorState),
      accessRoute envKey now st store mhi sessionCode doctorId = .success resp st2 →
      ∃ conn, connMatch envKey now st sessionCode = some conn ∧
        conn.permissions.view_mood_logs = true ∧
        conn.permissions.view_medication_logs = true ∧
        conn.permissions.view_voice_analysis = true ∧
        resp.accessToken = conn.access_token ∧
        resp.permissions = conn.permissions ∧
        resp.data = assemblePatientData conn.permissions (store conn.patient_id) ∧
        st2.connections = (st.connections.map (fun c =>
            if c.id = conn.id then { c with doctor_id := doctorId } else c)).map
          (fun c => if c.id = conn.id then
            { c with
              access_count := conn.access_count + 1
              last_accessed_at := some now }
          else c) := by
  intro envKey now st store mhi sessionCode doctorId resp st2 h
  simp only [accessRoute] at h
  split at h
  · exact absurd h (by simp)
  split at h
  · exact absurd h (by simp)
  split at h
  · exact absurd h (by simp)
  next connection hfound =>
    split at h
    · exact absurd h (by simp)
    next _doctor hdoc =>
      split at h
      next moodLogs medLogs voice hml hmed hvoice =>
        injection h with hresp hst
        subst hresp
        subst hst
        refine ⟨connection, hfound, ?_, ?_, ?_, rfl, rfl, rfl, rfl⟩
        · by_cases hg : connection.permissions.view_mood_logs
          · exact hg
          · simp [assemblePatientData, hg] at hml
        · by_cases hg : connection.permissions.view_medication_logs
          · exact hg
          · simp [assemblePatientData, hg] at hmed
        · by_cases hg : connection.permissions.view_voice_analysis
          · exact hg
          · simp [assemblePatientData, hg] at hvoice
      next hcatch =>
        exact absurd h (by simp)

/-- Composing the route's two sequential conditional writes on the same
connection id gives one combined conditional write. -/
theorem map_update_comp (l : List DoctorConnection) (cid doctorId : String)
    (n : Nat) (now : Int) :
    (l.map (fun c => if c.id = cid then { c with doctor_id := doctorId } else c)).map
      (fun c => if c.id = cid then
        { c with
          access_count := n
          last_accessed_at := some now }
      else c) =
    l.map (fun c => if c.id = cid then
      { c with
        doctor_id := doctorId
        access_count := n
        last_accessed_at := some now }
    else c) := by
  induction l with
  | nil => rfl
  | cons c t ih =>
    simp only [List.map_cons]
    rw [ih]
    congr 1
    by_cases hc : c.id = cid <;> simp [hc]

/-! ## Concrete data for the claim-route theorems -/

/-- The schema's default permission set: everything but export. -/
def allTruePerms : ConnectionPermissions :=
  { view_mood_logs := true, view_journal_entries := true,
    view_voice_analysis := true, view_medication_logs := true,
    view_behavioral_data := true, export_data := false }

/-- A connection already claimed by doctor `docA`. -/
def demoConn : DoctorConnection :=
  { id := "c1", patient_id := "p1", doctor_id := "docA",
    access_token := encryptSessionCode none "123456",
    token_expires_at := 1000, is_active := true,
    permissions := allTruePerms, access_count := 0,
    last_accessed_at := none, revoked_at := none, revocation_reason := none }

/-- Two registered doctors. -/
def demoDoctors : List Doctor :=
  [{ id := "docA", first_name := "Ann", last_name := "Abel",
     specialization := none, is_verified := true },
   { id := "docB", first_name := "Ben", last_name := "Blake",
     specialization := none, is_verified := true }]

/-- State holding the already-claimed connection. -/
def demoState : DoctorState := { connections := [demoConn], doctors := demoDoctors }

/-- A patient with no historical records in any category. -/
def demoStore : String → PatientStore :=
  fun _ => { moodLogs := [], journalEntries := [], voiceAnalysis := [], medicationLogs := [] }

/-- No stored mental-health index. -/
def demoMhi : String → Option Rat := fun _ => none

/-- The response of `docB`'s claim of the already-claimed code. -/
def demoResp : AccessResponse :=
  { accessToken := encryptSessionCode none "123456"
    expiresAt := 1000
    permissions := allTruePerms
    moodTrends := { trend := "insufficient_data", averageMood := none, averageAnxiety := none }
    mentalHealthIndex := none
    adherenceRate := 0
    voiceInsights :=
      { status := "insufficient_data", averageVocalHealth := none,
        averageFlatAffect := none, averageAgitation := none }
    data :=
      { moodLogs := some [], journalEntries := some [],
        voiceAnalysis := some [], medicationLogs := some [] } }

/-- The persisted state after `docB`'s claim: the binding is overwritten. -/
def demoState2 : DoctorState :=
  { connections := [{ demoConn with
      doctor_id := "docB"
      access_count := 1
      last_accessed_at := some 0 }],
    doctors := demoDoctors }

/-- C2 counterexample: the claim says a claim call on a connection whose
`doctorId` is already set fails `AlreadyClaimed` and never rebinds. On a
connection claimed by `docA`, a claim by `docB` succeeds and the stored
`doctor_id` becomes `docB`. -/
theorem spec_c2_counterexample :
    demoConn.doctor_id = "docA" ∧ isClaimed demoConn = true ∧
    accessRoute none 0 demoState demoStore demoMhi "123456" "docB" =
      .success demoResp demoState2 ∧
    demoState2.connections.map (fun c => c.doctor_id) = ["docB"] :=
  ⟨rfl, rfl, by decide, rfl⟩

/-- C2 amended: a successful claim unconditionally overwrites the matched
connection's `doctor_id` with the caller (also bumping `access_count` and
`last_accessed_at` from the stale read); there is no `AlreadyClaimed`
failure, so `doctor_id` can be rebound by ever-later claims. -/
theorem spec_c2_amended :
    ∀ (envKey : Option String) (now : Int) (st : DoctorState)
      (store : String → PatientStore) (mhi : String → Option Rat)
      (sessionCode doctorId : String) (resp : AccessResponse) (st2 : DoctorState),
      accessRoute envKey now st store mhi sessionCode doctorId = .success resp st2 →
      ∃ conn, connMatch envKey now st sessionCode = some conn ∧
        st2.connections = st.connections.map (fun c =>
          if c.id = conn.id then
            { c with
              doctor_id := doctorId
              access_count := conn.access_count + 1
              last_accessed_at := some now }
          else c) := by
  intro envKey now st store mhi sessionCode doctorId resp st2 h
  obtain ⟨conn, hfound, _, _, _, _, _, _, hst⟩ :=
    accessRoute_success_inv envKey now st store mhi sessionCode doctorId resp st2 h
  exact ⟨conn, hfound, by rw [hst, map_update_comp]⟩

/-- C2 amended, witness: the concrete rebinding `docA` to `docB`. -/
theorem spec_c2_amended_witness :
    ∃ conn, connMatch none 0 demoState "123456" = some conn ∧
      demoState2.connections = demoState.connections.map (fun c =>
        if c.id = conn.id then
          { c with
            doctor_id := "docB"
            access_count := conn.access_count + 1
            last_accessed_at := some (0 : Int) }
        else c) :=
  spec_c2_amended none 0 demoState demoStore demoMhi "123456" "docB" demoResp demoState2 (by decide)

/-! ## Claim C4: permission-gated view over all 2^k combinations -/

/-- A permission set with the mood gate off and everything else on. -/
def c4Perms : ConnectionPermissions :=
  { view_mood_logs := false, view_journal_entries := true,
    view_voice_analysis := true, view_medication_logs := true,
    view_behavioral_data := true, export_data := true }

/-- An unclaimed, active, unexpired connection carrying `c4Perms`. -/
def c4Conn : DoctorConnection :=
  { id := "c4", patient_id := "p1", doctor_id := "",
    access_token := encryptSessionCode none "654321",
    token_expires_at := 1000, is_active := true,
    permissions := c4Perms, access_count := 0,
    last_accessed_at := none, revoked_at := none, revocation_reason := none }

/-- State holding the mood-gate-off connection. -/
def c4State : DoctorState := { connections := [c4Conn], doctors := demoDoctors }

/-- C4 counterexample: the claim promises the gate/field biconditional
over all 2^k permission combinations, but for a combination with the
mood gate off no assembled view is ever returned: the claim of a valid
code reaches the summary step, `calculateMoodTrends` dereferences the
absent category, and the route answers its catch-all 500. -/
theorem spec_c4_counterexample :
    c4Perms.view_mood_logs = false ∧
    c4Conn.is_active = true ∧ (0 : Int) < c4Conn.token_expires_at ∧
    decryptSessionCode none c4Conn.access_token = "654321" ∧
    isInternalError (accessRoute none 0 c4State demoStore demoMhi "654321" "docB") = true :=
  ⟨rfl, rfl, by decide, by decide, by decide⟩

/-- C4 amended: whenever a claim does return an assembled view, a
category field is present iff its permission gate is true; but a
successful response exists only when the mood, voice and medication
gates are all true — with any of the three off the route throws while
computing summaries, so the biconditional is not realisable over all
2^k combinations. -/
theorem spec_c4_amended :
    ∀ (envKey : Option String) (now : Int) (st : DoctorState)
      (store : String → PatientStore) (mhi : String → Option Rat)
      (sessionCode doctorId : String) (resp : AccessResponse) (st2 : DoctorState),
      accessRoute envKey now st store mhi sessionCode doctorId = .success resp st2 →
      (resp.data.moodLogs.isSome = resp.permissions.view_mood_logs ∧
       resp.data.journalEntries.isSome = resp.permissions.view_journal_entries ∧
       resp.data.voiceAnalysis.isSome = resp.permissions.view_voice_analysis ∧
       resp.data.medicationLogs.isSome = resp.permissions.view_medication_logs) ∧
      resp.permissions.view_mood_logs = true ∧
      resp.permissions.view_voice_analysis = true ∧
      resp.permissions.view_medication_logs = true := by
  intro envKey now st store mhi sessionCode doctorId resp st2 h
  obtain ⟨conn, _, hm, hmed, hv, _, hperm, hdata, _⟩ :=
    accessRoute_success_inv envKey now st store mhi sessionCode doctorId resp st2 h
  rw [hperm, hdata]
  refine ⟨⟨?_, ?_, ?_, ?_⟩, hm, hv, hmed⟩
  · simp [assemblePatientData, hm]
  · cases hj : conn.permissions.view_journal_entries <;> simp [assemblePatientData, hj]
  · simp [assemblePatientData, hv]
  · simp [assemblePatientData, hmed]

/-- C4 amended, witness: the all-gates-on demo claim, where every
category field is present and the biconditional holds. -/
theorem spec_c4_amended_witness :
    (demoResp.data.moodLogs.isSome = demoResp.permissions.view_mood_logs ∧
     demoResp.data.journalEntries.isSome = demoResp.permissions.view_journal_entries ∧
     demoResp.data.voiceAnalysis.isSome = demoResp.permissions.view_voice_analysis ∧
     demoResp.data.medicationLogs.isSome = demoResp.permissions.view_medication_logs) ∧
    demoResp.permissions.view_mood_logs = true ∧
    demoResp.permissions.view_voice_analysis = true ∧
    demoResp.permissions.view_medication_logs = true :=
  spec_c4_amended none 0 demoState demoStore demoMhi "123456" "docB" demoResp demoState2 (by decide)

/-! ## Claim C10: the stored ciphertext is disclosed on claim -/

/-- C10: every successful `POST /access` response returns the matched
connection's stored encrypted session code verbatim in its
`accessToken` field. -/
theorem spec_c10 :
    ∀ (envKey : Option String) (now : Int) (st : DoctorState)
      (store : String → PatientStore) (mhi : String → Option Rat)
      (sessionCode doctorId : String) (resp : AccessResponse) (st2 : DoctorState),
      accessRoute envKey now st store mhi sessionCode doctorId = .success resp st2 →
      ∃ conn, connMatch envKey now st sessionCode = some conn ∧
        resp.accessToken = conn.access_token := by
  intro envKey now st store mhi sessionCode doctorId resp st2 h
  obtain ⟨conn, hfound, _, _, _, htok, _, _, _⟩ :=
    accessRoute_success_inv envKey now st store mhi sessionCode doctorId resp st2 h
  exact ⟨conn, hfound, htok⟩

/-- C10 witness: the demo claim's response carries the stored ciphertext
of code 123456. -/
theorem spec_c10_witness :
    ∃ conn, connMatch none 0 demoState "123456" = some conn ∧
      demoResp.accessToken = conn.access_token :=
  spec_c10 none 0 demoState demoStore demoMhi "123456" "docB" demoResp demoState2 (by decide)

/-! ## Claim C6: revocation -/

/-- Any element of the post-revocation list matching (id, patient) is
inactive and stamped with the call's timestamp. -/
theorem revokeRoute_matched (now : Int) (conns : List DoctorConnection)
    (id patientId : String) :
    ∀ c, c ∈ (revokeRoute now conns id patientId).1 →
      c.id = id → c.patient_id = patientId →
      c.is_active = false ∧ c.revoked_at = some now := by
  intro c hc hid hpid
  simp only [revokeRoute, List.mem_map] at hc
  obtain ⟨c0, hc0, hceq⟩ := hc
  subst hceq
  by_cases hcond : c0.id = id ∧ c0.patient_id = patientId
  · simp [hcond]
  · simp only [if_neg hcond] at hid hpid ⊢
    exact absurd ⟨hid, hpid⟩ hcond

/-- C6 amended: `revoke` never fails `NotFound`: it reports the success
message whether or not any connection matched (wrong owner and
nonexistent ids are silent no-op successes); a matching connection comes
out inactive with `revokedAt` stamped; a second revoke is again a
success and leaves the connection inactive, restamping `revokedAt` with
the second call's time. -/
theorem spec_c6_amended :
    ∀ (now now2 : Int) (conns : List DoctorConnection) (id patientId : String),
      (revokeRoute now conns id patientId).2 = "Session revoked successfully" ∧
      (∀ c, c ∈ (revokeRoute now conns id patientId).1 →
        c.id = id → c.patient_id = patientId →
        c.is_active = false ∧ c.revoked_at = some now) ∧
      (revokeRoute now2 (revokeRoute now conns id patientId).1 id patientId).2 =
        "Session revoked successfully" ∧
      (∀ c, c ∈ (revokeRoute now2 (revokeRoute now conns id patientId).1 id patientId).1 →
        c.id = id → c.patient_id = patientId →
        c.is_active = false ∧ c.revoked_at = some now2) :=
  fun now now2 conns id patientId =>
    ⟨rfl, revokeRoute_matched now conns id patientId, rfl,
     revokeRoute_matched now2 (revokeRoute now conns id patientId).1 id patientId⟩

/-- A live connection owned by patient `p1`. -/
def demoRevConn : DoctorConnection :=
  { id := "r1", patient_id := "p1", doctor_id := "",
    access_token := encryptSessionCode none "777777",
    token_expires_at := 1000, is_active := true,
    permissions := allTruePerms, access_count := 0,
    last_accessed_at := none, revoked_at := none, revocation_reason := none }

/-- `demoRevConn` after the first revoke at time 5. -/
def demoRevConn2 : DoctorConnection :=
  { demoRevConn with
    is_active := false
    revoked_at := some 5
    revocation_reason := some "Revoked by patient" }

/-- C6 amended, witness: revoking `r1` at time 5 succeeds and leaves it
inactive with `revokedAt` 5. -/
theorem spec_c6_amended_witness :
    (revokeRoute 5 [demoRevConn] "r1" "p1").2 = "Session revoked successfully" ∧
    demoRevConn2.is_active = false ∧ demoRevConn2.revoked_at = some 5 :=
  ⟨(spec_c6_amended 5 9 [demoRevConn] "r1" "p1").1,
   ((spec_c6_amended 5 9 [demoRevConn] "r1" "p1").2.1 demoRevConn2 (by decide) rfl rfl).1,
   ((spec_c6_amended 5 9 [demoRevConn] "r1" "p1").2.1 demoRevConn2 (by decide) rfl rfl).2⟩

/-- C6 counterexample: the claim says `revoke` fails `NotFound` when the
connection does not exist or is not owned by the caller; the code
reports the success message in both situations (and leaves a
foreign-owned connection untouched). -/
theorem spec_c6_counterexample :
    revokeRoute 0 [] "c9" "p1" = ([], "Session revoked successfully") ∧
    revokeRoute 0 [demoConn] "c1" "p7" = ([demoConn], "Session revoked successfully") :=
  ⟨rfl, by decide⟩

/-! ## Claim C9: session-code creation -/

/-- C9: an accepted ttl yields exactly the connection the claim
describes — only the encrypted code persisted, `doctor_id` the unclaimed
empty string, active, zero access count, expiry `now + ttl` hours — with
the plaintext code appearing (only) in the response; and the schema
accepts a ttl exactly in [1, 72]. -/
theorem spec_c9 :
    ∀ (envKey : Option String) (now : Int) (newId userId code : String)
      (perms : ConnectionPermissions) (h : Int),
      createSessionCodeSchemaAccepts h = true →
      (sessionRoute envKey now newId userId code true perms h =
        .created
          { id := newId, patient_id := userId, doctor_id := "",
            access_token := encryptSessionCode envKey code,
            token_expires_at := now + h * MS_PER_HOUR, is_active := true,
            permissions := perms, access_count := 0,
            last_accessed_at := none, revoked_at := none, revocation_reason := none }
          { sessionCode := code, expiresAt := now + h * MS_PER_HOUR, permissions := perms } ∧
        isClaimed
          { id := newId, patient_id := userId, doctor_id := "",
            access_token := encryptSessionCode envKey code,
            token_expires_at := now + h * MS_PER_HOUR, is_active := true,
            permissions := perms, access_count := 0,
            last_accessed_at := none, revoked_at := none, revocation_reason := none } = false ∧
        decryptSessionCode envKey (encryptSessionCode envKey code) = code) ∧
      (∀ h2 : Int, createSessionCodeSchemaAccepts h2 = true ↔ (1 ≤ h2 ∧ h2 ≤ 72)) := by
  intro envKey now newId userId code perms h hacc
  constructor
  · refine ⟨?_, by simp [isClaimed], by simp [decryptSessionCode, encryptSessionCode, aesEncrypt, aesDecrypt]⟩
    simp [sessionRoute, hacc]
  · intro h2
    simp [createSessionCodeSchemaAccepts]

/-- C9 witness: a 24-hour code for patient `p1`, and the boundary checks
of the ttl rule. -/
theorem spec_c9_witness :
    sessionRoute none 0 "conn1" "p1" "314159" true allTruePerms 24 =
      .created
        { id := "conn1", patient_id := "p1", doctor_id := "",
          access_token := encryptSessionCode none "314159",
          token_expires_at := 0 + 24 * MS_PER_HOUR, is_active := true,
          permissions := allTruePerms, access_count := 0,
          last_accessed_at := none, revoked_at := none, revocation_reason := none }
        { sessionCode := "314159", expiresAt := 0 + 24 * MS_PER_HOUR,
          permissions := allTruePerms } ∧
    (createSessionCodeSchemaAccepts 73 = true ↔ (1 ≤ (73 : Int) ∧ (73 : Int) ≤ 72)) ∧
    (createSessionCodeSchemaAccepts 0 = true ↔ (1 ≤ (0 : Int) ∧ (0 : Int) ≤ 72)) := by
  obtain ⟨⟨hcreate, _, _⟩, hiff⟩ :=
    spec_c9 none 0 "conn1" "p1" "314159" allTruePerms 24 (by decide)
  exact ⟨hcreate, hiff 73, hiff 0⟩

end MindfulMe
